import Mathlib

/-!
Shallow embedding of the tank_dynamics simulator core (C++ sources
src/stepper.{h,cpp}, src/tank_model.{h,cpp}, src/simulator.{h,cpp}) and
verification of the specification claims against it.

Conventions of the embedding:
* C++ double is modelled as the rational numbers ℚ; std::sqrt (whose exact
  value leaves ℚ) is carried as an explicit function parameter of the tank
  parameters.
* Eigen::VectorXd is modelled as List ℚ; componentwise Eigen arithmetic is
  zipWith/map.
* Functions that throw C++ exceptions return Except SimError; mutating
  member functions are state-passing (they return the new Simulator).
* Signed C++ index parameters are ℤ.
-/

namespace TankSim

/-- Vectors of doubles (Eigen::VectorXd). -/
abbrev Vec := List ℚ

/-- Componentwise vector addition (Eigen operator+). -/
def vadd (a b : Vec) : Vec := List.zipWith (· + ·) a b

/-- Scalar multiple of a vector (Eigen scalar*vector). -/
def smul (c : ℚ) (v : Vec) : Vec := v.map (fun x => c * x)

/-- Errors thrown by the simulator core (std::invalid_argument,
std::out_of_range and std::runtime_error sites, identified by site). -/
inductive SimError where
  | stepperDimMismatch
  | invalidStateSize
  | invalidInputsSize
  | invalidDt
  | measuredIndexOOB (i : Nat)
  | outputIndexOOB (i : Nat)
  | outOfRange
  deriving DecidableEq

/-- Physical parameters of the tank (TankModel::Parameters), together with
the square-root map standing for std::sqrt, which has no exact rational
counterpart and is treated as configuration data of the model. -/
structure TankParameters where
  area : ℚ
  k_v : ℚ
  max_height : ℚ
  sqrt : ℚ → ℚ

/-- The tank process model (class TankModel). -/
structure TankModel where
  area_ : ℚ
  k_v_ : ℚ
  max_height_ : ℚ
  sqrt_ : ℚ → ℚ

/-- TankModel constructor: copies the parameters (the positivity asserts are
debug-only and have no release-mode effect). -/
def TankModel.ofParams (p : TankParameters) : TankModel :=
  ⟨p.area, p.k_v, p.max_height, p.sqrt⟩

/-- Valve flow equation (TankModel::outletFlow): zero when the tank is
empty, otherwise k_v * x * sqrt(h). -/
def TankModel.outletFlow (m : TankModel) (h x : ℚ) : ℚ :=
  if h ≤ 0 then 0 else m.k_v_ * x * m.sqrt_ h

/-- Material balance (TankModel::derivatives):
dh/dt = (q_in - q_out) / area, reading h = state(0), q_in = inputs(0),
valve position = inputs(1). -/
def TankModel.derivatives (m : TankModel) (state inputs : Vec) : Vec :=
  let h := state.getD 0 0
  let q_in := inputs.getD 0 0
  let valve_position := inputs.getD 1 0
  let q_out := m.outletFlow h valve_position
  [(q_in - q_out) / m.area_]

/-- The RK4 stepper (class Stepper); it stores the state dimension fixed at
construction (stepper.h: state_dimension_). -/
structure Stepper where
  state_dimension_ : Nat

/-- Modelled from the spec: the two-argument Stepper constructor used by
simulator.cpp and the tests is absent from src (stepper.h declares only the
one-argument form); per the spec the dimensionality fixed at construction
is the state dimension, so the extra input-dimension argument configures
nothing of the GSL kernel. -/
def Stepper.ofDims (stateDim _inputDim : Nat) : Stepper := ⟨stateDim⟩

/-- Signature of the pluggable derivative callback
(Stepper::DerivativeFunc): time, state, input to derivative. -/
abbrev DerivativeFunc := ℚ → Vec → Vec → Vec

/-- The GSL callback (gsl_derivative_wrapper in stepper.cpp): it wraps the
raw state array y handed over by GSL into a vector whose size is taken from
the INPUT vector (Eigen::Map over y with ctx->input->size() entries) and
calls the user derivative with it and the held input vector. -/
def gsl_derivative_wrapper (deriv : DerivativeFunc) (input : Vec)
    (t : ℚ) (y : Vec) : Vec :=
  deriv t (y.take input.length) input

/-- Modelled from the spec: gsl_odeiv2_step_apply with gsl_odeiv2_step_rk4
is an external GSL routine whose source is not part of this repository; per
the spec it performs one classical RK4 step, evaluating the system
derivative at times t, t+dt/2, t+dt/2, t+dt with the classical weighted
stage estimates. The second component records the (time, raw state array)
pairs at which the system derivative callback is invoked, in order. -/
def rk4Run (f : ℚ → Vec → Vec) (t dt : ℚ) (y : Vec) :
    Vec × List (ℚ × Vec) :=
  let k1 := f t y
  let y2 := vadd y (smul (dt / 2) k1)
  let k2 := f (t + dt / 2) y2
  let y3 := vadd y (smul (dt / 2) k2)
  let k3 := f (t + dt / 2) y3
  let y4 := vadd y (smul dt k3)
  let k4 := f (t + dt) y4
  (vadd y (smul (dt / 6) (vadd k1 (vadd (smul 2 k2) (vadd (smul 2 k3) k4)))),
   [(t, y), (t + dt / 2, y2), (t + dt / 2, y3), (t + dt, y4)])

/-- Result state of one RK4 step. -/
def rk4Step (f : ℚ → Vec → Vec) (t dt : ℚ) (y : Vec) : Vec :=
  (rk4Run f t dt y).1

/-- The (time, raw state array) pairs at which the RK4 kernel invokes the
system derivative callback during one step, in order. -/
def rk4Points (f : ℚ → Vec → Vec) (t dt : ℚ) (y : Vec) : List (ℚ × Vec) :=
  (rk4Run f t dt y).2

/-- Stepper::step (stepper.cpp): throws when the state size differs from
the dimension fixed at construction, otherwise advances the state by one
RK4 step, routing every derivative evaluation through
gsl_derivative_wrapper. The wrapper always reports GSL_SUCCESS, so the GSL
step itself cannot fail. -/
def Stepper.step (s : Stepper) (t dt : ℚ) (state input : Vec)
    (deriv : DerivativeFunc) : Except SimError Vec :=
  if state.length ≠ s.state_dimension_ then .error .stepperDimMismatch
  else .ok (rk4Step (gsl_derivative_wrapper deriv input) t dt state)

/-- The (time, state argument, input argument) triples of the calls the
user derivative function receives during one Stepper::step, in order
(empty when the step throws before integrating). -/
def Stepper.stepCalls (s : Stepper) (t dt : ℚ) (state input : Vec)
    (deriv : DerivativeFunc) : List (ℚ × Vec × Vec) :=
  if state.length ≠ s.state_dimension_ then []
  else (rk4Points (gsl_derivative_wrapper deriv input) t dt state).map
    (fun p => (p.1, p.2.take input.length, input))

/-- Modelled from the spec: PID gain triple (pid_controller.h is not under
src); proportional gain, integral time constant, derivative time constant. -/
structure Gains where
  Kc : ℚ
  tau_I : ℚ
  tau_D : ℚ
  deriving DecidableEq

/-- Modelled from the spec: the discrete PID controller with anti-windup
(pid_controller.{h,cpp} are not under src). It holds the gain set, bias,
output limits, the symmetric integral-accumulator bound and the integral
accumulator, which is its only runtime state. -/
structure PIDController where
  gains : Gains
  bias : ℚ
  minOutput : ℚ
  maxOutput : ℚ
  maxIntegral : ℚ
  integral : ℚ
  deriving DecidableEq

/-- Clamping of a value to [lo, hi]. -/
def clamp (lo hi x : ℚ) : ℚ := max lo (min x hi)

/-- Modelled from the spec: PIDController::compute(error, error_rate, dt).
The accumulator gains (Kc / tau_I) * error * dt (skipped entirely when
tau_I = 0), is clamped symmetrically to [-maxIntegral, maxIntegral] before
use (anti-windup), and the output bias + Kc*error + integral +
Kc*tau_D*error_rate is clamped to [minOutput, maxOutput]. Returns the
updated controller and the clamped output. -/
def PIDController.compute (c : PIDController) (error error_rate dt : ℚ) :
    PIDController × ℚ :=
  let acc0 := if c.gains.tau_I = 0 then c.integral
              else c.integral + (c.gains.Kc / c.gains.tau_I) * error * dt
  let acc := clamp (-c.maxIntegral) c.maxIntegral acc0
  let raw := c.bias + c.gains.Kc * error + acc
             + c.gains.Kc * c.gains.tau_D * error_rate
  ({ c with integral := acc }, clamp c.minOutput c.maxOutput raw)

/-- Modelled from the spec: PIDController::setGains replaces the gain set
without touching the accumulator (bumpless retuning). -/
def PIDController.setGains (c : PIDController) (g : Gains) : PIDController :=
  { c with gains := g }

/-- Modelled from the spec: PIDController::reset zeroes the integral
accumulator only. -/
def PIDController.reset (c : PIDController) : PIDController :=
  { c with integral := 0 }

/-- Per-controller configuration (Simulator::ControllerConfig). -/
structure ControllerConfig where
  gains : Gains
  bias : ℚ
  minOutputLimit : ℚ
  maxOutputLimit : ℚ
  maxIntegralAccumulation : ℚ
  measuredIndex : ℤ
  outputIndex : ℤ
  initialSetpoint : ℚ
  deriving DecidableEq

/-- Default-constructed controller configuration (value-initialized). -/
def ControllerConfig.zero : ControllerConfig := ⟨⟨0, 0, 0⟩, 0, 0, 0, 0, 0, 0, 0⟩

/-- Simulator construction configuration (Simulator::Config). -/
structure Config where
  params : TankParameters
  controllerConfig : List ControllerConfig
  initialState : Vec
  initialInputs : Vec
  dt : ℚ

/-- Modelled from the spec: constants.h is not under src. The tank state
and input dimensions are fixed by TankModel (state [h], inputs [q_in, x],
asserted in tank_model.cpp). -/
def TANK_STATE_SIZE : Nat := 1

/-- Modelled from the spec: expected input dimension (constants.h absent);
TankModel reads inputs(0) and inputs(1). -/
def TANK_INPUT_SIZE : Nat := 2

/-- Modelled from the spec: the implementation-defined sane timestep bounds
MIN_DT and MAX_DT of constants.h, kept as parameters of the model. -/
structure DtBounds where
  MIN_DT : ℚ
  MAX_DT : ℚ

/-- Controller construction (PIDController built from a configuration with
a zero accumulator, as done in the Simulator constructor). -/
def PIDController.ofConfig (c : ControllerConfig) : PIDController :=
  ⟨c.gains, c.bias, c.minOutputLimit, c.maxOutputLimit,
   c.maxIntegralAccumulation, 0⟩

/-- Validation 3 of the Simulator constructor: walks the controller
configurations in order; for each controller i it first checks the
measured index against the state size, then the output index against the
input size, and reports the first violation. -/
def ctrlIndexError (stateLen inputLen : Nat) :
    Nat → List ControllerConfig → Option SimError
  | _, [] => none
  | i, c :: rest =>
    if c.measuredIndex < 0 ∨ (stateLen : ℤ) ≤ c.measuredIndex then
      some (.measuredIndexOOB i)
    else if c.outputIndex < 0 ∨ (inputLen : ℤ) ≤ c.outputIndex then
      some (.outputIndexOOB i)
    else ctrlIndexError stateLen inputLen (i + 1) rest

/-- The live simulator state (class Simulator, simulator.h). -/
@[ext]
structure Simulator where
  model : TankModel
  stepper : Stepper
  controllers : List PIDController
  time : ℚ
  state : Vec
  inputs : Vec
  initialState : Vec
  initialInputs : Vec
  dt : ℚ
  setpoints : List ℚ
  previousErrors : List ℚ
  controllerConfig : List ControllerConfig

/-- The member state the Simulator constructor (simulator.cpp) establishes
once validation passes: the configuration vectors are copied, time is 0,
controllers are built from the configurations with zero accumulators,
setpoints come from each configuration's initial setpoint, and the
previous-error trackers are zeroed. -/
def freshSimulator (config : Config) : Simulator :=
  { model := TankModel.ofParams config.params
    stepper := Stepper.ofDims config.initialState.length config.initialInputs.length
    controllers := config.controllerConfig.map PIDController.ofConfig
    time := 0
    state := config.initialState
    inputs := config.initialInputs
    initialState := config.initialState
    initialInputs := config.initialInputs
    dt := config.dt
    setpoints := config.controllerConfig.map (fun c => c.initialSetpoint)
    previousErrors := List.replicate config.controllerConfig.length 0
    controllerConfig := config.controllerConfig }

/-- The Simulator constructor (simulator.cpp): copies the configuration,
validates state size, input size, dt and the controller indices in source
order, and only then builds the controllers, setpoints and zeroed previous
errors. A validation failure throws std::invalid_argument and no simulator
instance exists. -/
def Simulator.make (B : DtBounds) (config : Config) : Except SimError Simulator :=
  if config.initialState.length ≠ TANK_STATE_SIZE then .error .invalidStateSize
  else if config.initialInputs.length ≠ TANK_INPUT_SIZE then .error .invalidInputsSize
  else if config.dt ≤ 0 ∨ config.dt < B.MIN_DT ∨ config.dt > B.MAX_DT then
    .error .invalidDt
  else
    match ctrlIndexError config.initialState.length config.initialInputs.length
        0 config.controllerConfig with
    | some e => .error e
    | none => .ok (freshSimulator config)

/-- The controller update loop of Simulator::step (simulator.cpp, step 3):
for each controller in configuration order, read the measured value from
the freshly integrated state, form error and backward-difference error
rate, run the controller, write its output into the input vector at its
output index, and record the error as the previous error. The four lists
have equal length for every constructed simulator. Returns the final input
vector, the new previous errors and the updated controllers. -/
def controlLoop (dt : ℚ) (newState : Vec) :
    List ControllerConfig → List ℚ → List ℚ → List PIDController → Vec →
    Vec × List ℚ × List PIDController
  | cfg :: cfgs, sp :: sps, pe :: pes, c :: cs, inputs =>
    let measured_value := newState.getD cfg.measuredIndex.toNat 0
    let error := sp - measured_value
    let error_dot := (error - pe) / dt
    let res := c.compute error error_dot dt
    let inputs1 := inputs.set cfg.outputIndex.toNat res.2
    let rest := controlLoop dt newState cfgs sps pes cs inputs1
    (rest.1, error :: rest.2.1, res.1 :: rest.2.2)
  | _, _, _, _, inputs => (inputs, [], [])

/-- Simulator::step (simulator.cpp): integrate one step of dt with the
current input vector, advance the clock by dt, then run the controller
update loop on the freshly integrated state. The stepper exception
propagates before any member is mutated. -/
def Simulator.stepE (s : Simulator) : Except SimError Simulator :=
  match s.stepper.step s.time s.dt s.state s.inputs
      (fun _ state input => s.model.derivatives state input) with
  | .error e => .error e
  | .ok newState =>
    let res := controlLoop s.dt newState s.controllerConfig s.setpoints
      s.previousErrors s.controllers s.inputs
    .ok { s with state := newState
                 time := s.time + s.dt
                 inputs := res.1
                 previousErrors := res.2.1
                 controllers := res.2.2 }

/-- Simulator::step as a state transformer: on a thrown exception the
simulator is observed unchanged (the throw happens before any member
mutation). -/
def Simulator.stepRun (s : Simulator) : Simulator :=
  match s.stepE with
  | .ok s1 => s1
  | .error _ => s

/-- Simulator::getTime. -/
def Simulator.getTime (s : Simulator) : ℚ := s.time

/-- Simulator::getState. -/
def Simulator.getState (s : Simulator) : Vec := s.state

/-- Simulator::getInputs. -/
def Simulator.getInputs (s : Simulator) : Vec := s.inputs

/-- Simulator::getSetpoint: throws std::out_of_range for an index outside
the setpoint vector. -/
def Simulator.getSetpoint (s : Simulator) (index : ℤ) : Except SimError ℚ :=
  if index < 0 ∨ (s.setpoints.length : ℤ) ≤ index then .error .outOfRange
  else .ok (s.setpoints.getD index.toNat 0)

/-- Simulator::getControllerOutput: bounds-checks the controller index,
then reads back the value stored in the input vector at that controller's
output index. -/
def Simulator.getControllerOutput (s : Simulator) (index : ℤ) :
    Except SimError ℚ :=
  if index < 0 ∨ (s.controllers.length : ℤ) ≤ index then .error .outOfRange
  else
    .ok (s.inputs.getD
      ((s.controllerConfig.getD index.toNat ControllerConfig.zero).outputIndex).toNat 0)

/-- Simulator::getError: bounds-checks the controller index, then returns
setpoint minus the measured state entry. -/
def Simulator.getError (s : Simulator) (index : ℤ) : Except SimError ℚ :=
  if index < 0 ∨ (s.controllers.length : ℤ) ≤ index then .error .outOfRange
  else
    .ok (s.setpoints.getD index.toNat 0 -
      s.state.getD
        ((s.controllerConfig.getD index.toNat ControllerConfig.zero).measuredIndex).toNat 0)

/-- Simulator::setInput: bounds-checks, then writes the input entry. The
throw happens before the write, so on error the simulator is unchanged. -/
def Simulator.setInput (s : Simulator) (index : ℤ) (value : ℚ) :
    Except SimError Unit × Simulator :=
  if index < 0 ∨ (s.inputs.length : ℤ) ≤ index then (.error .outOfRange, s)
  else (.ok (), { s with inputs := s.inputs.set index.toNat value })

/-- Simulator::setSetpoint: bounds-checks, then writes the setpoint. -/
def Simulator.setSetpoint (s : Simulator) (index : ℤ) (value : ℚ) :
    Except SimError Unit × Simulator :=
  if index < 0 ∨ (s.setpoints.length : ℤ) ≤ index then (.error .outOfRange, s)
  else (.ok (), { s with setpoints := s.setpoints.set index.toNat value })

/-- Simulator::setControllerGains: bounds-checks, then retunes controller
index in place (bumpless: the accumulator is untouched). -/
def Simulator.setControllerGains (s : Simulator) (index : ℤ) (g : Gains) :
    Except SimError Unit × Simulator :=
  if index < 0 ∨ (s.controllers.length : ℤ) ≤ index then (.error .outOfRange, s)
  else
    let c := s.controllers.getD index.toNat (PIDController.ofConfig ControllerConfig.zero)
    (.ok (), { s with controllers := s.controllers.set index.toNat (c.setGains g) })

/-- The setpoint restoration loop of Simulator::reset: setpoints[i] :=
controllerConfig[i].initialSetpoint for i below the controller count. -/
def overwriteSetpoints : List ℚ → List ControllerConfig → List ℚ
  | sps, [] => sps
  | [], _ => []
  | _ :: sps, cfg :: cfgs => cfg.initialSetpoint :: overwriteSetpoints sps cfgs

/-- Simulator::reset (simulator.cpp): time to 0, state and inputs to the
construction-time vectors, every controller reset (integral accumulator
zeroed, everything else kept), setpoints back to the configured initial
setpoints, previous errors filled with 0. -/
def Simulator.reset (s : Simulator) : Simulator :=
  { s with time := 0
           state := s.initialState
           inputs := s.initialInputs
           controllers := s.controllers.map PIDController.reset
           setpoints := overwriteSetpoints s.setpoints
             (s.controllerConfig.take s.controllers.length)
           previousErrors := s.previousErrors.map (fun _ => 0) }

/-! Observable call sequences against a live simulator, used to state the
reset reproducibility contract. Accessors are pure and cannot influence a
trajectory, so a call sequence is a list of step and mutator calls; a
mutator called with an out-of-range index throws and leaves the simulator
unchanged, and the sequence continues. -/

/-- One call of a trajectory-relevant Simulator member function. -/
inductive Op where
  | tick
  | setInput (i : ℤ) (v : ℚ)
  | setSetpoint (i : ℤ) (v : ℚ)
  | setControllerGains (i : ℤ) (g : Gains)

/-- Effect of one call on the simulator (exceptions leave it unchanged). -/
def Simulator.applyOp (s : Simulator) : Op → Simulator
  | .tick => s.stepRun
  | .setInput i v => (s.setInput i v).2
  | .setSetpoint i v => (s.setSetpoint i v).2
  | .setControllerGains i g => (s.setControllerGains i g).2

/-- Effect of a call sequence, first call first. -/
def Simulator.runOps (s : Simulator) (ops : List Op) : Simulator :=
  ops.foldl Simulator.applyOp s

/-- Whether a call replaces controller gains. -/
def Op.usesGains : Op → Bool
  | .setControllerGains _ _ => true
  | _ => false

/-! Claim-side description of one Simulator::step tick, written as
independent per-controller computations followed by the sequence of input
writes, to be compared with the threaded loop of the source. -/

/-- Error of one controller as the claim states it: setpoint minus the
entry of the freshly integrated state at the measured index. -/
def specError (newState : Vec) (cfg : ControllerConfig) (sp : ℚ) : ℚ :=
  sp - newState.getD cfg.measuredIndex.toNat 0

/-- Errors of all controllers in configuration order. -/
def specErrors (newState : Vec) (cfgs : List ControllerConfig) (sps : List ℚ) :
    List ℚ :=
  List.zipWith (fun cfg sp => specError newState cfg sp) cfgs sps

/-- Per-controller PID evaluation of one tick: the updated controller and
its clamped output, computed from the error, the backward-difference error
rate and dt; one entry per controller in configuration order. -/
def specPairs (dt : ℚ) (newState : Vec) (cfgs : List ControllerConfig)
    (sps pes : List ℚ) (cs : List PIDController) :
    List (PIDController × ℚ) :=
  List.zipWith
    (fun x y =>
      (y.2).compute (specError newState x.1 x.2)
        ((specError newState x.1 x.2 - y.1) / dt) dt)
    (cfgs.zip sps) (pes.zip cs)

/-- Clamped controller outputs of one tick, in configuration order. -/
def specOutputs (dt : ℚ) (newState : Vec) (cfgs : List ControllerConfig)
    (sps pes : List ℚ) (cs : List PIDController) : List ℚ :=
  (specPairs dt newState cfgs sps pes cs).map Prod.snd

/-- Updated controllers of one tick, in configuration order. -/
def specControllers (dt : ℚ) (newState : Vec) (cfgs : List ControllerConfig)
    (sps pes : List ℚ) (cs : List PIDController) : List PIDController :=
  (specPairs dt newState cfgs sps pes cs).map Prod.fst

/-- Sequential application of the (output index, output) writes into the
input vector, first controller first, so a later write to the same index
overwrites an earlier one. -/
def specWrites (inputs : Vec) (ws : List (ℤ × ℚ)) : Vec :=
  ws.foldl (fun v w => v.set w.1.toNat w.2) inputs

/-- The freshly integrated state of one tick: one RK4 step from the
current state under the current (previous tick's) input vector. -/
def Simulator.integrated (s : Simulator) : Vec :=
  rk4Step
    (gsl_derivative_wrapper (fun _ state input => s.model.derivatives state input)
      s.inputs)
    s.time s.dt s.state

/-- Claim-side description of Simulator::step: integrate with the current
inputs, advance the clock by dt, then store the per-controller errors,
updated controllers, and the sequentially written input vector. -/
def Simulator.stepSpec (s : Simulator) : Simulator :=
  let ns := s.integrated
  { s with
    state := ns
    time := s.time + s.dt
    inputs := specWrites s.inputs
      ((s.controllerConfig.map (fun c => c.outputIndex)).zip
        (specOutputs s.dt ns s.controllerConfig s.setpoints s.previousErrors
          s.controllers))
    previousErrors := specErrors ns s.controllerConfig s.setpoints
    controllers := specControllers s.dt ns s.controllerConfig s.setpoints
      s.previousErrors s.controllers }

/-! Claim-side descriptions of the construction-time validation. -/

/-- The construction-time checks in the order the source performs them:
state size, input size, dt range, then for each controller in
configuration order its measured index followed by its output index. Each
check is paired with the error it raises. -/
def validationChecks (B : DtBounds) (config : Config) : List (Bool × SimError) :=
  (decide (config.initialState.length ≠ TANK_STATE_SIZE), SimError.invalidStateSize) ::
  (decide (config.initialInputs.length ≠ TANK_INPUT_SIZE), SimError.invalidInputsSize) ::
  (decide (config.dt ≤ 0 ∨ config.dt < B.MIN_DT ∨ config.dt > B.MAX_DT), SimError.invalidDt) ::
  config.controllerConfig.enum.flatMap (fun p =>
    [(decide (p.2.measuredIndex < 0 ∨ (config.initialState.length : ℤ) ≤ p.2.measuredIndex),
       SimError.measuredIndexOOB p.1),
     (decide (p.2.outputIndex < 0 ∨ (config.initialInputs.length : ℤ) ≤ p.2.outputIndex),
       SimError.outputIndexOOB p.1)])

/-- The first failing validation check, if any. -/
def firstFailure (B : DtBounds) (config : Config) : Option SimError :=
  ((validationChecks B config).find? (fun c => c.1)).map (fun c => c.2)

/-- Index of the first controller whose measured index is out of range. -/
def firstMeasuredViolation (stateLen : Nat) (cfgs : List ControllerConfig) :
    Option Nat :=
  (cfgs.enum.find? (fun p =>
    decide (p.2.measuredIndex < 0 ∨ (stateLen : ℤ) ≤ p.2.measuredIndex))).map
    (fun p => p.1)

/-- Index of the first controller whose output index is out of range. -/
def firstOutputViolation (inputLen : Nat) (cfgs : List ControllerConfig) :
    Option Nat :=
  (cfgs.enum.find? (fun p =>
    decide (p.2.outputIndex < 0 ∨ (inputLen : ℤ) ≤ p.2.outputIndex))).map
    (fun p => p.1)

/-- Construction as the claim orders the five validations: state size,
input size, dt, then ALL measured indices, then ALL output indices,
failing on the first violation in that order. -/
def claimOrderedMake (B : DtBounds) (config : Config) : Except SimError Simulator :=
  if config.initialState.length ≠ TANK_STATE_SIZE then .error .invalidStateSize
  else if config.initialInputs.length ≠ TANK_INPUT_SIZE then .error .invalidInputsSize
  else if config.dt ≤ 0 ∨ config.dt < B.MIN_DT ∨ config.dt > B.MAX_DT then
    .error .invalidDt
  else
    match firstMeasuredViolation config.initialState.length config.controllerConfig with
    | some i => .error (.measuredIndexOOB i)
    | none =>
      match firstOutputViolation config.initialInputs.length config.controllerConfig with
      | some i => .error (.outputIndexOOB i)
      | none => .ok (freshSimulator config)

/-! Concrete objects used by witnesses and counterexamples. -/

/-- Sample tank parameters (area 1, k_v 1, max height 5, the square-root
map instantiated with the identity). -/
def exParams : TankParameters := ⟨1, 1, 5, id⟩

/-- Sample controller: proportional-only reverse action (Kc = -1), bias 1,
wide output limits, measuring state 0, driving input 1, setpoint 2. -/
def exCtrl : ControllerConfig := ⟨⟨-1, 0, 0⟩, 1, -10, 10, 10, 0, 1, 2⟩

/-- Sample configuration at an exact steady state of the modelled tank:
level 1, inlet flow 1, valve position 1, dt 1. -/
def exConfig : Config := ⟨exParams, [exCtrl], [1], [1, 1], 1⟩

/-- Sample timestep bounds. -/
def exBounds : DtBounds := ⟨1, 10⟩

/-- The simulator constructed from the sample configuration. -/
def exSim : Simulator := freshSimulator exConfig

/-- Sample configuration with two controllers, the first with an
out-of-range output index and the second with an out-of-range measured
index. -/
def exConfigBadIdx : Config :=
  ⟨exParams,
   [⟨⟨-1, 0, 0⟩, 1, -10, 10, 10, 0, 5, 2⟩,
    ⟨⟨-1, 0, 0⟩, 1, -10, 10, 10, 7, 1, 2⟩],
   [1], [1, 1], 1⟩

/-! Claim-side spelling of the classical RK4 stage estimates, written with
the user derivative applied directly (no wrapper), as the spec states
them. -/

/-- Second RK4 stage estimate: state + (dt/2) k1. -/
def stage2 (deriv : DerivativeFunc) (t dt : ℚ) (state input : Vec) : Vec :=
  vadd state (smul (dt / 2) (deriv t state input))

/-- Third RK4 stage estimate: state + (dt/2) k2. -/
def stage3 (deriv : DerivativeFunc) (t dt : ℚ) (state input : Vec) : Vec :=
  vadd state (smul (dt / 2) (deriv (t + dt / 2) (stage2 deriv t dt state input) input))

/-- Fourth RK4 stage estimate: state + dt k3. -/
def stage4 (deriv : DerivativeFunc) (t dt : ℚ) (state input : Vec) : Vec :=
  vadd state (smul dt (deriv (t + dt / 2) (stage3 deriv t dt state input) input))

/-- The classical RK4 weighted combination
state + (dt/6)(k1 + 2 k2 + 2 k3 + k4) of the four stage derivatives. -/
def rk4ClaimResult (deriv : DerivativeFunc) (t dt : ℚ) (state input : Vec) : Vec :=
  vadd state (smul (dt / 6)
    (vadd (deriv t state input)
      (vadd (smul 2 (deriv (t + dt / 2) (stage2 deriv t dt state input) input))
        (vadd (smul 2 (deriv (t + dt / 2) (stage3 deriv t dt state input) input))
          (deriv (t + dt) (stage4 deriv t dt state input) input)))))

lemma length_vadd (a b : Vec) : (vadd a b).length = min a.length b.length :=
  List.length_zipWith _ _ _

lemma length_smul (c : ℚ) (v : Vec) : (smul c v).length = v.length :=
  List.length_map _ _

/-- Claim C7: Stepper::step fails with the dimension-mismatch error
whenever the state vector's size differs from the dimension fixed at
construction, and raises no error at all (in particular no
dimension-mismatch error) when the sizes match. -/
theorem stepper_step_dimension_check (s : Stepper) (t dt : ℚ) (state input : Vec)
    (deriv : DerivativeFunc) :
    (state.length ≠ s.state_dimension_ →
        s.step t dt state input deriv = .error .stepperDimMismatch) ∧
    (state.length = s.state_dimension_ →
        ∃ v, s.step t dt state input deriv = .ok v) := by
  constructor
  · intro h
    simp [Stepper.step, h]
  · intro h
    refine ⟨rk4Step (gsl_derivative_wrapper deriv input) t dt state, ?_⟩
    simp [Stepper.step, h]

/-- Witness for C7 at a one-dimensional stepper: the empty state is
rejected with the dimension-mismatch error and a size-one state is
integrated without error. -/
theorem stepper_step_dimension_check_witness :
    ((Stepper.ofDims 1 1).step 0 1 [] [0] (fun _ st _ => st) =
        .error .stepperDimMismatch) ∧
    (∃ v, (Stepper.ofDims 1 1).step 0 1 [0] [0] (fun _ st _ => st) = .ok v) :=
  ⟨(stepper_step_dimension_check (Stepper.ofDims 1 1) 0 1 [] [0]
      (fun _ st _ => st)).1 (by decide),
   (stepper_step_dimension_check (Stepper.ofDims 1 1) 0 1 [0] [0]
      (fun _ st _ => st)).2 (by decide)⟩

/-- Claim C6: every index-based accessor and mutator called with an index
outside its valid range reports the out-of-range error and leaves the
simulator unmodified; in particular getSetpoint fails for any index at or
beyond the controller count. -/
theorem accessor_mutator_out_of_range (s : Simulator) (i : ℤ) (v : ℚ) (g : Gains) :
    ((i < 0 ∨ (s.setpoints.length : ℤ) ≤ i) →
        s.getSetpoint i = .error .outOfRange) ∧
    ((i < 0 ∨ (s.controllers.length : ℤ) ≤ i) →
        s.getControllerOutput i = .error .outOfRange ∧
        s.getError i = .error .outOfRange ∧
        (s.setControllerGains i g).1 = .error .outOfRange ∧
        (s.setControllerGains i g).2 = s) ∧
    ((i < 0 ∨ (s.inputs.length : ℤ) ≤ i) →
        (s.setInput i v).1 = .error .outOfRange ∧ (s.setInput i v).2 = s) ∧
    ((i < 0 ∨ (s.setpoints.length : ℤ) ≤ i) →
        (s.setSetpoint i v).1 = .error .outOfRange ∧ (s.setSetpoint i v).2 = s) ∧
    (s.setpoints.length = s.controllers.length →
        (s.controllers.length : ℤ) ≤ i → s.getSetpoint i = .error .outOfRange) := by
  refine ⟨fun h => ?_, fun h => ?_, fun h => ?_, fun h => ?_, fun hl h => ?_⟩
  · simp [Simulator.getSetpoint, h]
  · refine ⟨?_, ?_, ?_, ?_⟩ <;>
      simp [Simulator.getControllerOutput, Simulator.getError,
        Simulator.setControllerGains, h]
  · exact ⟨by simp [Simulator.setInput, h], by simp [Simulator.setInput, h]⟩
  · exact ⟨by simp [Simulator.setSetpoint, h], by simp [Simulator.setSetpoint, h]⟩
  · simp [Simulator.getSetpoint, hl, h]

/-- Witness for C6 at the sample simulator with index 3, which is out of
range everywhere (one controller, two inputs). -/
theorem accessor_mutator_out_of_range_witness :
    exSim.getSetpoint 3 = .error .outOfRange ∧
    exSim.getControllerOutput 3 = .error .outOfRange ∧
    exSim.getError 3 = .error .outOfRange ∧
    (exSim.setControllerGains 3 ⟨0, 0, 0⟩).1 = .error .outOfRange ∧
    (exSim.setControllerGains 3 ⟨0, 0, 0⟩).2 = exSim ∧
    (exSim.setInput 3 0).1 = .error .outOfRange ∧
    (exSim.setInput 3 0).2 = exSim ∧
    (exSim.setSetpoint 3 0).1 = .error .outOfRange ∧
    (exSim.setSetpoint 3 0).2 = exSim := by
  obtain ⟨w1, w2, w3, w4, -⟩ :=
    accessor_mutator_out_of_range exSim 3 0 ⟨0, 0, 0⟩
  obtain ⟨a, b, c, d⟩ := w2 (by decide)
  obtain ⟨e, f⟩ := w3 (by decide)
  obtain ⟨g, h⟩ := w4 (by decide)
  exact ⟨w1 (by decide), a, b, c, d, e, f, g, h⟩

/-- Claim C1 (amended): during Stepper::step the wrapper sizes the state
handed to the user derivative from the INPUT vector, so in the defined
regime (input size at most the constructed dimension, derivative returning
dimension-sized vectors) every derivative invocation receives the held
input vector and a state whose size equals the input vector's size, which
equals the constructed dimension exactly when the input size does. -/
theorem derivative_call_state_size (s : Stepper) (t dt : ℚ) (state input : Vec)
    (deriv : DerivativeFunc)
    (hdim : state.length = s.state_dimension_)
    (hin : input.length ≤ state.length)
    (hderiv : ∀ τ st inp, (deriv τ st inp).length = state.length) :
    ∀ c ∈ s.stepCalls t dt state input deriv,
      c.2.2 = input ∧ c.2.1.length = input.length ∧
      (input.length = s.state_dimension_ → c.2.1.length = s.state_dimension_) := by
  have hw : ∀ τ (y : Vec), (gsl_derivative_wrapper deriv input τ y).length = state.length :=
    fun τ y => hderiv τ (y.take input.length) input
  have h2 : (vadd state (smul (dt / 2) (gsl_derivative_wrapper deriv input t state))).length
      = state.length := by
    simp [length_vadd, length_smul, hw]
  have h3 : (vadd state (smul (dt / 2) (gsl_derivative_wrapper deriv input (t + dt / 2)
      (vadd state (smul (dt / 2) (gsl_derivative_wrapper deriv input t state)))))).length
      = state.length := by
    simp [length_vadd, length_smul, hw]
  have h4 : (vadd state (smul dt (gsl_derivative_wrapper deriv input (t + dt / 2)
      (vadd state (smul (dt / 2) (gsl_derivative_wrapper deriv input (t + dt / 2)
        (vadd state (smul (dt / 2) (gsl_derivative_wrapper deriv input t state))))))))).length
      = state.length := by
    simp [length_vadd, length_smul, hw]
  intro c hc
  simp only [Stepper.stepCalls, hdim, ne_eq, not_true_eq_false, if_false,
    rk4Points, rk4Run, List.map_cons, List.map_nil, List.mem_cons,
    List.not_mem_nil, or_false] at hc
  have hlen : ∀ (y : Vec), y.length = state.length →
      (y.take input.length).length = input.length := by
    intro y hy
    simp [List.length_take, hy]
    omega
  rcases hc with h | h | h | h <;> subst h <;>
    refine ⟨rfl, ?_, fun he => ?_⟩ <;>
    simp_all [hlen state rfl, hlen _ h2, hlen _ h3, hlen _ h4]

/-- Refutation of C1 as stated: with a stepper of dimension 2 and an input
vector of size 1, the derivative receives a size-1 state (the wrapper maps
input->size() entries of the raw state array), not a size-2 one. -/
theorem derivative_call_state_size_counterexample :
    ¬ ∀ c ∈ (Stepper.ofDims 2 1).stepCalls 0 1 [0, 0] [5] (fun _ st _ => st),
        c.2.1.length = (Stepper.ofDims 2 1).state_dimension_ := by
  intro h
  have hm : ((0 : ℚ), ([0] : Vec), ([5] : Vec)) ∈
      (Stepper.ofDims 2 1).stepCalls 0 1 [0, 0] [5] (fun _ st _ => st) := by
    simp [Stepper.stepCalls, Stepper.ofDims, rk4Points, rk4Run]
  have := h _ hm
  simp [Stepper.ofDims] at this

/-- Witness for the amended C1: at a dimension-2 stepper with a size-2
input, the first derivative call receives the input vector and a state of
the input's size, which here equals the constructed dimension. -/
theorem derivative_call_state_size_witness :
    ((0 : ℚ), ([0, 0] : Vec), ([5, 6] : Vec)).2.2 = [5, 6] ∧
    ((0 : ℚ), ([0, 0] : Vec), ([5, 6] : Vec)).2.1.length = ([5, 6] : Vec).length ∧
    (([5, 6] : Vec).length = (Stepper.ofDims 2 2).state_dimension_ →
      ((0 : ℚ), ([0, 0] : Vec), ([5, 6] : Vec)).2.1.length
        = (Stepper.ofDims 2 2).state_dimension_) :=
  derivative_call_state_size (Stepper.ofDims 2 2) 0 1 [0, 0] [5, 6]
    (fun _ _ _ => [0, 0]) (by decide) (by decide) (fun _ _ _ => rfl)
    ((0 : ℚ), ([0, 0] : Vec), ([5, 6] : Vec))
    (by simp [Stepper.stepCalls, Stepper.ofDims, rk4Points, rk4Run])

/-- Claim C3: during one Stepper::step the derivative function is invoked
exactly four times, at times t, t+dt/2, t+dt/2, t+dt, with the classical
RK4 weighted-stage state estimates, with the input vector held constant
across the four calls, and the step result is the classical RK4 weighted
combination. Stated in the defined regime where the input size equals the
constructed dimension. -/
theorem rk4_four_stage_calls (s : Stepper) (t dt : ℚ) (state input : Vec)
    (deriv : DerivativeFunc)
    (hdim : state.length = s.state_dimension_)
    (hin : input.length = state.length)
    (hderiv : ∀ τ st inp, (deriv τ st inp).length = state.length) :
    s.stepCalls t dt state input deriv =
      [(t, state, input),
       (t + dt / 2, stage2 deriv t dt state input, input),
       (t + dt / 2, stage3 deriv t dt state input, input),
       (t + dt, stage4 deriv t dt state input, input)] ∧
    s.step t dt state input deriv = .ok (rk4ClaimResult deriv t dt state input) := by
  have htake : ∀ y : Vec, y.length = state.length → y.take input.length = y := by
    intro y hy
    exact List.take_of_length_le (by omega)
  have hs1 : state.take input.length = state := htake state rfl
  have hl2 : (stage2 deriv t dt state input).length = state.length := by
    simp [stage2, length_vadd, length_smul, hderiv]
  have hl3 : (stage3 deriv t dt state input).length = state.length := by
    simp [stage3, length_vadd, length_smul, hderiv]
  have hl4 : (stage4 deriv t dt state input).length = state.length := by
    simp [stage4, length_vadd, length_smul, hderiv]
  have hw1 : gsl_derivative_wrapper deriv input t state = deriv t state input := by
    simp [gsl_derivative_wrapper, hs1]
  have hw2 : gsl_derivative_wrapper deriv input (t + dt / 2)
      (stage2 deriv t dt state input)
      = deriv (t + dt / 2) (stage2 deriv t dt state input) input := by
    simp [gsl_derivative_wrapper, htake _ hl2]
  have hw3 : gsl_derivative_wrapper deriv input (t + dt / 2)
      (stage3 deriv t dt state input)
      = deriv (t + dt / 2) (stage3 deriv t dt state input) input := by
    simp [gsl_derivative_wrapper, htake _ hl3]
  have hw4 : gsl_derivative_wrapper deriv input (t + dt)
      (stage4 deriv t dt state input)
      = deriv (t + dt) (stage4 deriv t dt state input) input := by
    simp [gsl_derivative_wrapper, htake _ hl4]
  have hs2 : vadd state (smul (dt / 2) (deriv t state input))
      = stage2 deriv t dt state input := rfl
  have hs3 : vadd state (smul (dt / 2)
        (deriv (t + dt / 2) (stage2 deriv t dt state input) input))
      = stage3 deriv t dt state input := rfl
  have hs4 : vadd state (smul dt
        (deriv (t + dt / 2) (stage3 deriv t dt state input) input))
      = stage4 deriv t dt state input := rfl
  constructor
  · simp only [Stepper.stepCalls]
    rw [if_neg (by simp [hdim])]
    simp only [rk4Points, rk4Run, List.map_cons, List.map_nil]
    rw [hw1, hs2, hw2, hs3, hw3, hs4]
    rw [hs1, htake _ hl2, htake _ hl3, htake _ hl4]
  · simp only [Stepper.step]
    rw [if_neg (by simp [hdim])]
    simp only [rk4Step, rk4Run, rk4ClaimResult]
    rw [hw1, hs2, hw2, hs3, hw3, hs4, hw4]

/-- Witness for C3 at a one-dimensional stepper with a constant-derivative
system. -/
theorem rk4_four_stage_calls_witness :
    (Stepper.ofDims 1 1).stepCalls 0 1 [0] [7] (fun _ _ _ => [1]) =
      [(0, [0], [7]),
       (0 + 1 / 2, stage2 (fun _ _ _ => [1]) 0 1 [0] [7], [7]),
       (0 + 1 / 2, stage3 (fun _ _ _ => [1]) 0 1 [0] [7], [7]),
       (0 + 1, stage4 (fun _ _ _ => [1]) 0 1 [0] [7], [7])] ∧
    (Stepper.ofDims 1 1).step 0 1 [0] [7] (fun _ _ _ => [1]) =
      .ok (rk4ClaimResult (fun _ _ _ => [1]) 0 1 [0] [7]) :=
  rk4_four_stage_calls (Stepper.ofDims 1 1) 0 1 [0] [7] (fun _ _ _ => [1])
    (by decide) (by decide) (fun _ _ _ => rfl)

lemma controlLoop_eq (dt : ℚ) (ns : Vec) :
    ∀ (cfgs : List ControllerConfig) (sps pes : List ℚ) (cs : List PIDController)
      (inputs : Vec),
      sps.length = cfgs.length → pes.length = cfgs.length → cs.length = cfgs.length →
      controlLoop dt ns cfgs sps pes cs inputs =
        (specWrites inputs ((cfgs.map (fun c => c.outputIndex)).zip
            (specOutputs dt ns cfgs sps pes cs)),
         specErrors ns cfgs sps,
         specControllers dt ns cfgs sps pes cs) := by
  intro cfgs
  induction cfgs with
  | nil =>
    intro sps pes cs inputs h1 h2 h3
    simp only [List.length_nil, List.length_eq_zero] at h1 h2 h3
    subst h1; subst h2; subst h3
    simp [controlLoop, specWrites, specOutputs, specPairs, specErrors,
      specControllers]
  | cons cfg cfgs ih =>
    intro sps pes cs inputs h1 h2 h3
    cases sps with
    | nil => simp at h1
    | cons sp sps =>
      cases pes with
      | nil => simp at h2
      | cons pe pes =>
        cases cs with
        | nil => simp at h3
        | cons c cs =>
          simp only [List.length_cons, Nat.succ_inj] at h1 h2 h3
          simp only [controlLoop]
          rw [ih sps pes cs _ h1 h2 h3]
          simp only [specErrors, specOutputs, specControllers, specPairs,
            specWrites, specError, List.zip_cons_cons, List.zipWith_cons_cons,
            List.map_cons, List.foldl_cons]

lemma specPairs_length (dt : ℚ) (ns : Vec) (cfgs : List ControllerConfig)
    (sps pes : List ℚ) (cs : List PIDController)
    (h1 : sps.length = cfgs.length) (h2 : pes.length = cfgs.length)
    (h3 : cs.length = cfgs.length) :
    (specPairs dt ns cfgs sps pes cs).length = cfgs.length := by
  simp [specPairs, List.length_zipWith, List.length_zip, h1, h2, h3]

lemma specOutputs_length (dt : ℚ) (ns : Vec) (cfgs : List ControllerConfig)
    (sps pes : List ℚ) (cs : List PIDController)
    (h1 : sps.length = cfgs.length) (h2 : pes.length = cfgs.length)
    (h3 : cs.length = cfgs.length) :
    (specOutputs dt ns cfgs sps pes cs).length = cfgs.length := by
  simp [specOutputs, specPairs_length dt ns cfgs sps pes cs h1 h2 h3]

lemma specControllers_length (dt : ℚ) (ns : Vec) (cfgs : List ControllerConfig)
    (sps pes : List ℚ) (cs : List PIDController)
    (h1 : sps.length = cfgs.length) (h2 : pes.length = cfgs.length)
    (h3 : cs.length = cfgs.length) :
    (specControllers dt ns cfgs sps pes cs).length = cfgs.length := by
  simp [specControllers, specPairs_length dt ns cfgs sps pes cs h1 h2 h3]

lemma stepE_eq_stepSpec (s : Simulator)
    (h1 : s.setpoints.length = s.controllerConfig.length)
    (h2 : s.previousErrors.length = s.controllerConfig.length)
    (h3 : s.controllers.length = s.controllerConfig.length)
    (h5 : s.state.length = s.stepper.state_dimension_) :
    s.stepE = .ok s.stepSpec := by
  have hstep : s.stepper.step s.time s.dt s.state s.inputs
      (fun _ state input => s.model.derivatives state input)
      = .ok (rk4Step (gsl_derivative_wrapper
          (fun _ state input => s.model.derivatives state input) s.inputs)
          s.time s.dt s.state) := by
    unfold Stepper.step
    rw [if_neg (by simp [h5])]
  unfold Simulator.stepE
  rw [hstep]
  dsimp only
  rw [controlLoop_eq s.dt _ s.controllerConfig s.setpoints s.previousErrors
    s.controllers s.inputs h1 h2 h3]
  rfl

lemma stepRun_eq_stepSpec (s : Simulator)
    (h1 : s.setpoints.length = s.controllerConfig.length)
    (h2 : s.previousErrors.length = s.controllerConfig.length)
    (h3 : s.controllers.length = s.controllerConfig.length)
    (h5 : s.state.length = s.stepper.state_dimension_) :
    s.stepRun = s.stepSpec := by
  unfold Simulator.stepRun
  rw [stepE_eq_stepSpec s h1 h2 h3 h5]

/-- Claim C4: one Simulator::step integrates with the previous tick's
inputs, advances the clock by dt, and then, for each controller in
configuration order, forms the error from the freshly integrated state,
the backward-difference error rate, runs the controller, writes its output
at its output index, and stores the error — equivalently, the threaded
loop of the source equals the independent per-controller computation
followed by the in-order input writes. -/
theorem step_integrate_then_control (s : Simulator)
    (h1 : s.setpoints.length = s.controllerConfig.length)
    (h2 : s.previousErrors.length = s.controllerConfig.length)
    (h3 : s.controllers.length = s.controllerConfig.length)
    (h5 : s.state.length = s.stepper.state_dimension_) :
    s.stepE = .ok s.stepSpec :=
  stepE_eq_stepSpec s h1 h2 h3 h5

/-- Witness for C4 at the sample simulator. -/
theorem step_integrate_then_control_witness : exSim.stepE = .ok exSim.stepSpec :=
  step_integrate_then_control exSim (by decide) (by decide) (by decide) (by decide)

lemma specWrites_getD_untouched (inputs : Vec) (ws : List (ℤ × ℚ)) (j : Nat)
    (h : ∀ w ∈ ws, w.1.toNat ≠ j) :
    (specWrites inputs ws).getD j 0 = inputs.getD j 0 := by
  induction ws generalizing inputs with
  | nil => rfl
  | cons w ws ih =>
    simp only [specWrites, List.foldl_cons] at ih ⊢
    rw [ih _ (fun x hx => h x (List.mem_cons_of_mem _ hx))]
    rw [List.getD_eq_getElem?_getD, List.getD_eq_getElem?_getD,
      List.getElem?_set_ne (h w (List.mem_cons_self _ _))]

lemma specWrites_getD_last (inputs : Vec) (ws : List (ℤ × ℚ)) (i j : Nat)
    (hi : i < ws.length)
    (hj : (ws.getD i (0, 0)).1.toNat = j)
    (hjlt : j < inputs.length)
    (hlast : ∀ k, i < k → k < ws.length → (ws.getD k (0, 0)).1.toNat ≠ j) :
    (specWrites inputs ws).getD j 0 = (ws.getD i (0, 0)).2 := by
  induction ws generalizing inputs i with
  | nil => simp at hi
  | cons w ws ih =>
    cases i with
    | zero =>
      have hw : w.1.toNat = j := by simpa using hj
      simp only [specWrites, List.foldl_cons, List.getD_cons_zero]
      rw [show (List.foldl (fun v w => v.set w.1.toNat w.2)
          (inputs.set w.1.toNat w.2) ws) = specWrites (inputs.set w.1.toNat w.2) ws
        from rfl]
      rw [specWrites_getD_untouched _ ws j ?later]
      · rw [hw, List.getD_eq_getElem?_getD,
          List.getElem?_set_self (by omega : j < inputs.length)]
        rfl
      case later =>
        intro x hx
        obtain ⟨m, hm, rfl⟩ := List.mem_iff_getElem.mp hx
        have := hlast (m + 1) (by omega) (by simpa using Nat.succ_lt_succ hm)
        rw [List.getD_cons_succ, List.getD_eq_getElem _ _ hm] at this
        exact this
    | succ i =>
      simp only [specWrites, List.foldl_cons, List.getD_cons_succ] at hj ⊢
      rw [show (List.foldl (fun v w => v.set w.1.toNat w.2)
          (inputs.set w.1.toNat w.2) ws) = specWrites (inputs.set w.1.toNat w.2) ws
        from rfl]
      rw [ih (inputs.set w.1.toNat w.2) i (by simpa using Nat.lt_of_succ_lt_succ hi)
        hj (by simpa [List.length_set] using hjlt) ?rest]
      case rest =>
        intro k hik hk
        have := hlast (k + 1) (by omega) (by simpa using Nat.succ_lt_succ hk)
        rw [List.getD_cons_succ] at this
        exact this

lemma zip_map_outputs_getD (cfgs : List ControllerConfig) (outs : List ℚ)
    (i : Nat) (hi : i < cfgs.length) (hlen : outs.length = cfgs.length) :
    ((cfgs.map (fun c => c.outputIndex)).zip outs).getD i (0, 0)
      = ((cfgs.getD i ControllerConfig.zero).outputIndex, outs.getD i 0) := by
  have hz : i < ((cfgs.map (fun c => c.outputIndex)).zip outs).length := by
    simp [List.length_zip, hlen]
    omega
  rw [List.getD_eq_getElem _ _ hz, List.getElem_zip]
  rw [List.getD_eq_getElem _ _ (by omega : i < cfgs.length),
    List.getD_eq_getElem _ _ (by omega : i < outs.length)]
  simp [List.getElem_map]

lemma stepSpec_inputs_last_writer (s : Simulator)
    (h1 : s.setpoints.length = s.controllerConfig.length)
    (h2 : s.previousErrors.length = s.controllerConfig.length)
    (h3 : s.controllers.length = s.controllerConfig.length)
    (hpos : ∀ cfg ∈ s.controllerConfig, 0 ≤ cfg.outputIndex)
    (i : Nat) (j : ℤ)
    (hi : i < s.controllerConfig.length)
    (hij : (s.controllerConfig.getD i ControllerConfig.zero).outputIndex = j)
    (hlast : ∀ k, i < k → k < s.controllerConfig.length →
        (s.controllerConfig.getD k ControllerConfig.zero).outputIndex ≠ j)
    (hjlen : j.toNat < s.inputs.length) :
    (s.stepSpec).inputs.getD j.toNat 0 =
      (specOutputs s.dt s.integrated s.controllerConfig s.setpoints
        s.previousErrors s.controllers).getD i 0 := by
  have houts : (specOutputs s.dt s.integrated s.controllerConfig s.setpoints
      s.previousErrors s.controllers).length = s.controllerConfig.length :=
    specOutputs_length _ _ _ _ _ _ h1 h2 h3
  have hj0 : 0 ≤ j := hij ▸ hpos _ (by
    rw [List.getD_eq_getElem _ _ hi]
    exact List.getElem_mem hi)
  simp only [Simulator.stepSpec]
  rw [specWrites_getD_last s.inputs _ i j.toNat ?hi ?hj hjlen ?hlast]
  · rw [zip_map_outputs_getD _ _ i hi houts]
  case hi =>
    simp [List.length_zip, houts]
    omega
  case hj =>
    rw [zip_map_outputs_getD _ _ i hi houts, hij]
  case hlast =>
    intro k hik hk
    rw [List.length_zip] at hk
    have hk2 : k < s.controllerConfig.length := by
      simp [houts] at hk
      omega
    rw [zip_map_outputs_getD _ _ k hk2 houts]
    have hne := hlast k hik hk2
    have hk0 : 0 ≤ (s.controllerConfig.getD k ControllerConfig.zero).outputIndex :=
      hpos _ (by
        rw [List.getD_eq_getElem _ _ hk2]
        exact List.getElem_mem hk2)
    intro hcontra
    apply hne
    omega

/-- Claim C9: when several controllers share the same output index, the
input entry after a Simulator::step equals the output of the last such
controller in configuration order (later writes overwrite earlier ones). -/
theorem last_writer_wins (s : Simulator)
    (h1 : s.setpoints.length = s.controllerConfig.length)
    (h2 : s.previousErrors.length = s.controllerConfig.length)
    (h3 : s.controllers.length = s.controllerConfig.length)
    (h5 : s.state.length = s.stepper.state_dimension_)
    (hpos : ∀ cfg ∈ s.controllerConfig, 0 ≤ cfg.outputIndex)
    (i : Nat) (j : ℤ)
    (hi : i < s.controllerConfig.length)
    (hij : (s.controllerConfig.getD i ControllerConfig.zero).outputIndex = j)
    (hlast : ∀ k, i < k → k < s.controllerConfig.length →
        (s.controllerConfig.getD k ControllerConfig.zero).outputIndex ≠ j)
    (hjlen : j.toNat < s.inputs.length) :
    (s.stepRun).inputs.getD j.toNat 0 =
      (specOutputs s.dt s.integrated s.controllerConfig s.setpoints
        s.previousErrors s.controllers).getD i 0 := by
  rw [stepRun_eq_stepSpec s h1 h2 h3 h5]
  exact stepSpec_inputs_last_writer s h1 h2 h3 hpos i j hi hij hlast hjlen

/-- Second sample controller, also driving input 1. -/
def exCtrlB : ControllerConfig := ⟨⟨-2, 0, 0⟩, 1, -10, 10, 10, 0, 1, 3⟩

/-- Sample simulator with two controllers that share output index 1. -/
def exSim2 : Simulator :=
  freshSimulator ⟨exParams, [exCtrl, exCtrlB], [1], [1, 1], 1⟩

/-- Witness for C9: with two controllers both driving input 1, after one
step the stored input is the second (last-configured) controller's
output. -/
theorem last_writer_wins_witness :
    (exSim2.stepRun).inputs.getD (1 : ℤ).toNat 0 =
      (specOutputs exSim2.dt exSim2.integrated exSim2.controllerConfig
        exSim2.setpoints exSim2.previousErrors exSim2.controllers).getD 1 0 :=
  last_writer_wins exSim2 (by decide) (by decide) (by decide) (by decide)
    (by decide) 1 1 (by decide) (by decide)
    (fun k hk1 hk2 => absurd hk2 (Nat.not_lt.mpr hk1)) (by decide)

/-- Claim C8: for a valid controller index, getControllerOutput returns
exactly the value stored in the input vector at that controller's
configured output index (getInputs at that index), and after a step — when
the controller is the last writer of its index — this is the clamped
output the controller actually applied, with no recomputation of the
control law. -/
theorem controller_output_readback (s : Simulator) (i : ℤ) (h0 : 0 ≤ i)
    (hi : i < (s.controllers.length : ℤ)) :
    (s.getControllerOutput i =
      .ok (s.getInputs.getD
        ((s.controllerConfig.getD i.toNat ControllerConfig.zero).outputIndex).toNat 0)) ∧
    (s.setpoints.length = s.controllerConfig.length →
     s.previousErrors.length = s.controllerConfig.length →
     s.controllers.length = s.controllerConfig.length →
     s.state.length = s.stepper.state_dimension_ →
     (∀ cfg ∈ s.controllerConfig, 0 ≤ cfg.outputIndex) →
     ((s.controllerConfig.getD i.toNat ControllerConfig.zero).outputIndex).toNat
        < s.inputs.length →
     (∀ k, i.toNat < k → k < s.controllerConfig.length →
        (s.controllerConfig.getD k ControllerConfig.zero).outputIndex ≠
          (s.controllerConfig.getD i.toNat ControllerConfig.zero).outputIndex) →
     (s.stepRun).getControllerOutput i =
       .ok ((specOutputs s.dt s.integrated s.controllerConfig s.setpoints
         s.previousErrors s.controllers).getD i.toNat 0)) := by
  constructor
  · unfold Simulator.getControllerOutput Simulator.getInputs
    rw [if_neg (by omega)]
  · intro h1 h2 h3 h5 hpos hjlen hlast
    rw [stepRun_eq_stepSpec s h1 h2 h3 h5]
    unfold Simulator.getControllerOutput
    have hcl : (s.stepSpec).controllers.length = s.controllers.length := by
      simp only [Simulator.stepSpec]
      rw [specControllers_length _ _ _ _ _ _ h1 h2 h3, h3]
    rw [if_neg (by rw [hcl]; omega)]
    have hcc : (s.stepSpec).controllerConfig = s.controllerConfig := rfl
    rw [hcc]
    have hvalue := stepSpec_inputs_last_writer s h1 h2 h3 hpos i.toNat
      ((s.controllerConfig.getD i.toNat ControllerConfig.zero).outputIndex)
      (by omega) rfl hlast hjlen
    rw [hvalue]

/-- Witness for C8 at the sample simulator's only controller. -/
theorem controller_output_readback_witness :
    (exSim.getControllerOutput 0 =
      .ok (exSim.getInputs.getD
        ((exSim.controllerConfig.getD (0 : ℤ).toNat ControllerConfig.zero).outputIndex).toNat 0)) ∧
    ((exSim.stepRun).getControllerOutput 0 =
      .ok ((specOutputs exSim.dt exSim.integrated exSim.controllerConfig
        exSim.setpoints exSim.previousErrors exSim.controllers).getD (0 : ℤ).toNat 0)) := by
  obtain ⟨ha, hb⟩ := controller_output_readback exSim 0 (by decide) (by decide)
  exact ⟨ha, hb (by decide) (by decide) (by decide) (by decide) (by decide)
    (by decide) (fun k hk1 hk2 => absurd hk2 (Nat.not_lt.mpr hk1))⟩

lemma map_const_zero (l : List ℚ) :
    l.map (fun _ => (0 : ℚ)) = List.replicate l.length 0 := by
  induction l with
  | nil => rfl
  | cons x xs ih => simp [List.replicate_succ, ih]

lemma overwriteSetpoints_eq :
    ∀ (sps : List ℚ) (cfgs : List ControllerConfig),
      sps.length = cfgs.length →
      overwriteSetpoints sps cfgs = cfgs.map (fun c => c.initialSetpoint) := by
  intro sps
  induction sps with
  | nil =>
    intro cfgs h
    have : cfgs = [] := by
      cases cfgs with
      | nil => rfl
      | cons c cfgs => simp at h
    subst this
    rfl
  | cons sp sps ih =>
    intro cfgs h
    cases cfgs with
    | nil => simp at h
    | cons cfg cfgs =>
      simp only [overwriteSetpoints, List.map_cons]
      rw [ih cfgs (by simpa using h)]

lemma gains_map_reset (cs : List PIDController) :
    (cs.map PIDController.reset).map (fun c => c.gains) = cs.map (fun c => c.gains) := by
  rw [List.map_map]
  rfl

/-- Claim C10: Simulator::reset restores time, state, inputs, integral
accumulators, previous errors and setpoints to their construction-time
values but leaves each controller's gain set untouched, so gains replaced
at runtime via setControllerGains persist across reset. -/
theorem reset_restores_all_but_gains (s : Simulator) (i : ℤ) (g : Gains)
    (h1 : s.setpoints.length = s.controllerConfig.length)
    (h3 : s.controllers.length = s.controllerConfig.length) :
    (s.reset = { s with time := 0
                        state := s.initialState
                        inputs := s.initialInputs
                        controllers := s.controllers.map PIDController.reset
                        setpoints := s.controllerConfig.map (fun c => c.initialSetpoint)
                        previousErrors := List.replicate s.previousErrors.length 0 }) ∧
    ((s.reset).controllers.map (fun c => c.gains) =
      s.controllers.map (fun c => c.gains)) ∧
    (((s.setControllerGains i g).2.reset).controllers.map (fun c => c.gains) =
      ((s.setControllerGains i g).2).controllers.map (fun c => c.gains)) := by
  refine ⟨?_, ?_, ?_⟩
  · have hsp : overwriteSetpoints s.setpoints
        (s.controllerConfig.take s.controllers.length)
        = s.controllerConfig.map (fun c => c.initialSetpoint) := by
      rw [h3, List.take_length]
      exact overwriteSetpoints_eq _ _ h1
    simp [Simulator.reset, hsp, map_const_zero]
  · simp only [Simulator.reset]
    exact gains_map_reset s.controllers
  · simp only [Simulator.reset]
    exact gains_map_reset ((s.setControllerGains i g).2).controllers

/-- Witness for C10 at the sample simulator with a runtime retune. -/
theorem reset_restores_all_but_gains_witness :
    (exSim.reset = { exSim with
        time := 0
        state := exSim.initialState
        inputs := exSim.initialInputs
        controllers := exSim.controllers.map PIDController.reset
        setpoints := exSim.controllerConfig.map (fun c => c.initialSetpoint)
        previousErrors := List.replicate exSim.previousErrors.length 0 }) ∧
    ((exSim.reset).controllers.map (fun c => c.gains) =
      exSim.controllers.map (fun c => c.gains)) ∧
    (((exSim.setControllerGains 0 ⟨-2, 0, 0⟩).2.reset).controllers.map (fun c => c.gains) =
      ((exSim.setControllerGains 0 ⟨-2, 0, 0⟩).2).controllers.map (fun c => c.gains)) :=
  reset_restores_all_but_gains exSim 0 ⟨-2, 0, 0⟩ (by decide) (by decide)

lemma specErrors_length (ns : Vec) (cfgs : List ControllerConfig) (sps : List ℚ) :
    (specErrors ns cfgs sps).length = min cfgs.length sps.length := by
  simp [specErrors, List.length_zipWith]

lemma specControllers_map_reset (dt : ℚ) (ns : Vec) :
    ∀ (cfgs : List ControllerConfig) (sps pes : List ℚ) (cs : List PIDController),
      sps.length = cfgs.length → pes.length = cfgs.length → cs.length = cfgs.length →
      (specControllers dt ns cfgs sps pes cs).map PIDController.reset =
        cs.map PIDController.reset := by
  intro cfgs
  induction cfgs with
  | nil =>
    intro sps pes cs h1 h2 h3
    simp only [List.length_nil, List.length_eq_zero] at h3
    subst h3
    rfl
  | cons cfg cfgs ih =>
    intro sps pes cs h1 h2 h3
    cases sps with
    | nil => simp at h1
    | cons sp sps =>
      cases pes with
      | nil => simp at h2
      | cons pe pes =>
        cases cs with
        | nil => simp at h3
        | cons c cs =>
          simp only [List.length_cons, Nat.succ_inj] at h1 h2 h3
          simp only [specControllers, specPairs, List.zip_cons_cons,
            List.zipWith_cons_cons, List.map_cons]
          have htail := ih sps pes cs h1 h2 h3
          simp only [specControllers, specPairs] at htail
          rw [htail]
          rfl

lemma stepRun_replay_fields (s : Simulator)
    (h1 : s.setpoints.length = s.controllerConfig.length)
    (h2 : s.previousErrors.length = s.controllerConfig.length)
    (h3 : s.controllers.length = s.controllerConfig.length) :
    (s.stepRun).model = s.model ∧ (s.stepRun).stepper = s.stepper ∧
    (s.stepRun).initialState = s.initialState ∧
    (s.stepRun).initialInputs = s.initialInputs ∧
    (s.stepRun).dt = s.dt ∧
    (s.stepRun).controllerConfig = s.controllerConfig ∧
    (s.stepRun).controllers.map PIDController.reset =
      s.controllers.map PIDController.reset ∧
    (s.stepRun).controllers.length = s.controllers.length ∧
    (s.stepRun).setpoints = s.setpoints ∧
    (s.stepRun).previousErrors.length = s.previousErrors.length := by
  unfold Simulator.stepRun Simulator.stepE
  cases hst : s.stepper.step s.time s.dt s.state s.inputs
      (fun _ state input => s.model.derivatives state input) with
  | error e => exact ⟨rfl, rfl, rfl, rfl, rfl, rfl, rfl, rfl, rfl, rfl⟩
  | ok ns =>
    dsimp only
    rw [controlLoop_eq s.dt ns s.controllerConfig s.setpoints s.previousErrors
      s.controllers s.inputs h1 h2 h3]
    refine ⟨rfl, rfl, rfl, rfl, rfl, rfl, ?_, ?_, rfl, ?_⟩
    · exact specControllers_map_reset s.dt ns s.controllerConfig s.setpoints
        s.previousErrors s.controllers h1 h2 h3
    · rw [specControllers_length s.dt ns s.controllerConfig s.setpoints
        s.previousErrors s.controllers h1 h2 h3, h3]
    · rw [specErrors_length ns s.controllerConfig s.setpoints, h1, h2]
      simp

/-- Relation between a freshly constructed simulator and any simulator
reachable from it by step and mutator calls that never replace gains: the
construction-time data is untouched, the controllers differ at most in
their integral accumulators, and the bookkeeping vectors keep their
lengths. -/
def ReplayInvariant (s0 s : Simulator) : Prop :=
  s.model = s0.model ∧ s.stepper = s0.stepper ∧
  s.initialState = s0.initialState ∧ s.initialInputs = s0.initialInputs ∧
  s.dt = s0.dt ∧ s.controllerConfig = s0.controllerConfig ∧
  s.controllers.map PIDController.reset = s0.controllers.map PIDController.reset ∧
  s.setpoints.length = s.controllerConfig.length ∧
  s.previousErrors.length = s.controllerConfig.length ∧
  s.controllers.length = s.controllerConfig.length

lemma replayInvariant_applyOp (s0 s : Simulator) (h : ReplayInvariant s0 s)
    (op : Op) (hop : op.usesGains = false) :
    ReplayInvariant s0 (s.applyOp op) := by
  obtain ⟨hm, hst, his, hii, hdt, hcc, hcr, hsl, hpl, hclen⟩ := h
  cases op with
  | tick =>
    obtain ⟨f1, f2, f3, f4, f5, f6, f7, f8, f9, f10⟩ :=
      stepRun_replay_fields s hsl hpl hclen
    simp only [Simulator.applyOp]
    exact ⟨f1.trans hm, f2.trans hst, f3.trans his, f4.trans hii, f5.trans hdt,
      f6.trans hcc, f7.trans hcr, by rw [f9, f6]; exact hsl,
      by rw [f10, f6]; exact hpl, by rw [f8, f6]; exact hclen⟩
  | setInput i v =>
    by_cases hc : i < 0 ∨ (s.inputs.length : ℤ) ≤ i
    · simp only [Simulator.applyOp, Simulator.setInput, if_pos hc]
      exact ⟨hm, hst, his, hii, hdt, hcc, hcr, hsl, hpl, hclen⟩
    · simp only [Simulator.applyOp, Simulator.setInput, if_neg hc]
      exact ⟨hm, hst, his, hii, hdt, hcc, hcr, hsl, hpl, hclen⟩
  | setSetpoint i v =>
    by_cases hc : i < 0 ∨ (s.setpoints.length : ℤ) ≤ i
    · simp only [Simulator.applyOp, Simulator.setSetpoint, if_pos hc]
      exact ⟨hm, hst, his, hii, hdt, hcc, hcr, hsl, hpl, hclen⟩
    · simp only [Simulator.applyOp, Simulator.setSetpoint, if_neg hc]
      exact ⟨hm, hst, his, hii, hdt, hcc, hcr,
        by simpa [List.length_set] using hsl, hpl, hclen⟩
  | setControllerGains i g => simp [Op.usesGains] at hop

lemma replayInvariant_runOps (s0 : Simulator) (ops : List Op) :
    ∀ s, ReplayInvariant s0 s → (∀ op ∈ ops, op.usesGains = false) →
      ReplayInvariant s0 (s.runOps ops) := by
  induction ops with
  | nil => exact fun s h _ => h
  | cons op ops ih =>
    intro s h hops
    simp only [Simulator.runOps, List.foldl_cons]
    have hstep := replayInvariant_applyOp s0 s h op (hops op (List.mem_cons_self _ _))
    have := ih (s.applyOp op) hstep (fun x hx => hops x (List.mem_cons_of_mem _ hx))
    simpa [Simulator.runOps] using this

lemma make_ok_eq (B : DtBounds) (config : Config) (s0 : Simulator)
    (h : Simulator.make B config = .ok s0) : s0 = freshSimulator config := by
  unfold Simulator.make at h
  split at h
  · exact Except.noConfusion h
  split at h
  · exact Except.noConfusion h
  split at h
  · exact Except.noConfusion h
  split at h
  · exact Except.noConfusion h
  · injection h with h
    exact h.symm

lemma replayInvariant_fresh (config : Config) :
    ReplayInvariant (freshSimulator config) (freshSimulator config) :=
  ⟨rfl, rfl, rfl, rfl, rfl, rfl, rfl, by simp [freshSimulator],
   by simp [freshSimulator], by simp [freshSimulator]⟩

lemma fresh_controllers_reset (config : Config) :
    (freshSimulator config).controllers.map PIDController.reset =
      (freshSimulator config).controllers := by
  simp only [freshSimulator]
  rw [List.map_map]
  rfl

lemma reset_of_replayInvariant (config : Config) (s : Simulator)
    (h : ReplayInvariant (freshSimulator config) s) :
    s.reset = freshSimulator config := by
  obtain ⟨hm, hst, his, hii, hdt, hcc, hcr, hsl, hpl, hclen⟩ := h
  have hcfg : (freshSimulator config).controllerConfig = config.controllerConfig := rfl
  unfold Simulator.reset
  refine Simulator.ext hm hst ?_ rfl ?_ ?_ his hii hdt ?_ ?_ hcc
  · rw [hcr, fresh_controllers_reset]
  · exact his
  · exact hii
  · rw [hcc, hcfg, hclen, hcc, hcfg, List.take_length]
    rw [overwriteSetpoints_eq s.setpoints config.controllerConfig
      (by rw [hsl, hcc, hcfg])]
    rfl
  · rw [map_const_zero, hpl, hcc, hcfg]
    rfl

/-- Claim C2 (amended): after reset(), a call sequence identical to one
issued from a fresh construction of the same configuration produces
identical results, provided no setControllerGains call was made before the
reset (reset does not restore gains). Indeed, reset after any gain-free
call sequence is exactly the freshly constructed simulator. -/
theorem reset_reproducibility (B : DtBounds) (config : Config) (s0 : Simulator)
    (hmk : Simulator.make B config = .ok s0) (ops : List Op)
    (hops : ∀ op ∈ ops, op.usesGains = false) :
    (s0.runOps ops).reset = s0 ∧
    ∀ more : List Op, ((s0.runOps ops).reset).runOps more = s0.runOps more := by
  have h0 := make_ok_eq B config s0 hmk
  subst h0
  have hinv := replayInvariant_runOps (freshSimulator config) ops
    (freshSimulator config) (replayInvariant_fresh config) hops
  have hr := reset_of_replayInvariant config _ hinv
  exact ⟨hr, fun more => by rw [hr]⟩

/-- Witness for the amended C2: a step and a setpoint change, then reset,
restore the sample simulator exactly. -/
theorem reset_reproducibility_witness :
    ((exSim.runOps [Op.tick, Op.setSetpoint 0 3]).reset = exSim) ∧
    ∀ more : List Op,
      (((exSim.runOps [Op.tick, Op.setSetpoint 0 3]).reset).runOps more =
        exSim.runOps more) :=
  reset_reproducibility exBounds exConfig exSim rfl
    [Op.tick, Op.setSetpoint 0 3] (by decide)

lemma ctrlIndexError_eq_find (sl il : Nat) :
    ∀ (cfgs : List ControllerConfig) (k : Nat),
      ctrlIndexError sl il k cfgs =
        (((List.enumFrom k cfgs).flatMap (fun p =>
          [(decide (p.2.measuredIndex < 0 ∨ (sl : ℤ) ≤ p.2.measuredIndex),
             SimError.measuredIndexOOB p.1),
           (decide (p.2.outputIndex < 0 ∨ (il : ℤ) ≤ p.2.outputIndex),
             SimError.outputIndexOOB p.1)])).find?
          (fun c => c.1)).map (fun c => c.2) := by
  intro cfgs
  induction cfgs with
  | nil => intro k; rfl
  | cons cfg cfgs ih =>
    intro k
    by_cases hm : cfg.measuredIndex < 0 ∨ (sl : ℤ) ≤ cfg.measuredIndex
    · simp [ctrlIndexError, hm, List.enumFrom_cons, List.find?_cons]
    · by_cases ho : cfg.outputIndex < 0 ∨ (il : ℤ) ≤ cfg.outputIndex
      · simp [ctrlIndexError, hm, ho, List.enumFrom_cons, List.find?_cons]
      · simp only [ctrlIndexError, if_neg hm, if_neg ho, List.enumFrom_cons,
          List.flatMap_cons, List.cons_append, List.nil_append, List.find?_cons,
          decide_eq_true_eq, hm, ho, decide_False, if_false]
        rw [ih (k + 1)]

/-- Claim C5 (amended): construction throws exactly when one of the
validation checks fails, reporting the FIRST failing check in source
order — state size, input size, dt range, then per controller in
configuration order its measured index followed by its output index
(interleaved, not all measured indices before all output indices) — and on
success the simulator record is fully built; construction succeeds iff no
check fails. -/
theorem construction_first_violation (B : DtBounds) (config : Config) :
    (Simulator.make B config =
      match firstFailure B config with
      | some e => Except.error e
      | none => Except.ok (freshSimulator config)) ∧
    ((∃ s, Simulator.make B config = .ok s) ↔ firstFailure B config = none) := by
  have hmain : Simulator.make B config =
      match firstFailure B config with
      | some e => Except.error e
      | none => Except.ok (freshSimulator config) := by
    unfold Simulator.make firstFailure validationChecks
    by_cases hs : config.initialState.length ≠ TANK_STATE_SIZE
    · simp [hs, List.find?_cons]
    · by_cases hi : config.initialInputs.length ≠ TANK_INPUT_SIZE
      · simp [hs, hi, List.find?_cons]
      · by_cases hd : config.dt ≤ 0 ∨ config.dt < B.MIN_DT ∨ config.dt > B.MAX_DT
        · simp [hs, hi, hd, List.find?_cons]
        · simp only [if_neg hs, if_neg hi, if_neg hd, List.find?_cons,
            decide_eq_true_eq, hs, hi, hd, decide_False, if_false]
          rw [show config.controllerConfig.enum
              = List.enumFrom 0 config.controllerConfig from rfl]
          rw [ctrlIndexError_eq_find config.initialState.length
            config.initialInputs.length config.controllerConfig 0]
  refine ⟨hmain, ?_⟩
  cases hf : firstFailure B config with
  | none => rw [hf] at hmain; simp [hmain]
  | some e => rw [hf] at hmain; simp [hmain]

/-- Refutation of the check ordering C5 states: with controller 0 having
an out-of-range output index and controller 1 an out-of-range measured
index, the source reports controller 0's output-index violation, while the
claimed order (all measured indices before all output indices) would
report controller 1's measured-index violation. -/
theorem construction_order_counterexample :
    Simulator.make exBounds exConfigBadIdx ≠
      claimOrderedMake exBounds exConfigBadIdx := by
  have h1 : Simulator.make exBounds exConfigBadIdx =
      .error (.outputIndexOOB 0) := rfl
  have h2 : claimOrderedMake exBounds exConfigBadIdx =
      .error (.measuredIndexOOB 1) := rfl
  rw [h1, h2]
  simp

/-- The sample simulator after a runtime retune to Kc = -2 followed by
reset: reset restores everything except the gains. -/
def exSimRetuned : Simulator :=
  { exSim with controllers := [⟨⟨-2, 0, 0⟩, 1, -10, 10, 10, 0⟩] }

lemma retune_reset_eq : ((exSim.setControllerGains 0 ⟨-2, 0, 0⟩).2).reset
    = exSimRetuned := rfl

lemma exSim_step_output : (exSim.stepRun).getControllerOutput 0 = .ok 0 := by
  norm_num [Simulator.stepRun, Simulator.stepE, Stepper.step, rk4Step, rk4Run,
    gsl_derivative_wrapper, TankModel.derivatives, TankModel.outletFlow,
    TankModel.ofParams, vadd, smul, controlLoop, PIDController.compute, clamp,
    min_def, max_def, Simulator.getControllerOutput, exSim, freshSimulator,
    exConfig, exCtrl, exParams, Stepper.ofDims, PIDController.ofConfig,
    List.set, ControllerConfig.zero]

lemma exSimRetuned_step_output :
    (exSimRetuned.stepRun).getControllerOutput 0 = .ok (-1) := by
  norm_num [Simulator.stepRun, Simulator.stepE, Stepper.step, rk4Step, rk4Run,
    gsl_derivative_wrapper, TankModel.derivatives, TankModel.outletFlow,
    TankModel.ofParams, vadd, smul, controlLoop, PIDController.compute, clamp,
    min_def, max_def, Simulator.getControllerOutput, exSimRetuned, exSim,
    freshSimulator, exConfig, exCtrl, exParams, Stepper.ofDims,
    PIDController.ofConfig, List.set, ControllerConfig.zero]

/-- Refutation of C2 as stated: a setControllerGains call before reset()
survives the reset, so the identical one-step call sequence issued after
reset() reports controller output -1 while the fresh construction reports
0 — the trajectories differ. -/
theorem reset_reproducibility_counterexample :
    ¬ ((((exSim.setControllerGains 0 ⟨-2, 0, 0⟩).2).reset.runOps [Op.tick]).getControllerOutput 0 =
       (exSim.runOps [Op.tick]).getControllerOutput 0) := by
  have hL : ((exSim.setControllerGains 0 ⟨-2, 0, 0⟩).2).reset.runOps [Op.tick]
      = exSimRetuned.stepRun := by
    rw [retune_reset_eq]
    rfl
  have hR : exSim.runOps [Op.tick] = exSim.stepRun := rfl
  rw [hL, hR, exSim_step_output, exSimRetuned_step_output]
  simp

end TankSim
